import Mathlib

/-!
Shallow embedding of the reactive dependency-tracking engine of the
`impact` repository.  Two variants of the engine exist in the sources:

* `src/impact-react/src/signal.ts` — the current engine, embedded in
  namespace `ImpactReact` below (its declarations shared with the legacy
  engine sit directly in namespace `Impact`);
* `src/src/Signal.ts` — the legacy engine, embedded in namespace `Legacy`.

JavaScript `Set`s are insertion-ordered and duplicate-free; they are
modelled as `List Nat` with an append-if-absent `setAdd` operation.
The global `ObserverContext.stack` (a JS array whose last element is the
current context) is modelled as a Lean list whose *head* is the top of
the stack.
-/

namespace Impact

abbrev TrackerId := Nat

abbrev CtxId := Nat

/-- JS `Set.add`: insertion-ordered, no duplicates. -/
def setAdd (l : List Nat) (x : Nat) : List Nat :=
  if x ∈ l then l else l ++ [x]

/-- `ObserverContextType` from `signal.ts`: "component" | "derived" | "effect". -/
inductive ObserverContextType where
  | component
  | derived
  | effect
deriving DecidableEq, Repr

/-- `ObserverContext` from `signal.ts` (the per-computation dependency scope):
its set of read trackers (`_getters`) and written trackers (`_setters`). -/
structure ObserverContext where
  id : CtxId
  ctype : ObserverContextType
  getters : List TrackerId
  setters : List TrackerId
deriving DecidableEq, Repr

/-- `ObserverContext.registerGetter` from `signal.ts`:
skip registration when the tracker is already registered as a setter. -/
def registerGetter (c : ObserverContext) (signal : TrackerId) : ObserverContext :=
  if signal ∈ c.setters then c
  else { c with getters := setAdd c.getters signal }

/-- `ObserverContext.registerSetter` from `signal.ts`:
drop any getter registration of the tracker, then add it as a setter. -/
def registerSetter (c : ObserverContext) (signal : TrackerId) : ObserverContext :=
  { c with getters := c.getters.erase signal, setters := setAdd c.setters signal }

/-!
## SignalTracker.notify — the two fan-out variants (claim C2)

The effect of one dependent context's `notify()` callback on the tracker's
live dependent set is abstracted as a function
`eff : CtxId → List CtxId → List CtxId` (given the context being notified
and the current live set, it returns the new live set; re-entrant additions
by the callback are additions performed by `eff`).  Both variants return
`(visited, finalLive)`: the sequence of contexts whose `notify()` was
invoked, in call order, and the resulting live dependent set.
-/

namespace ImpactReact

/-- Loop of `SignalTracker.notify` from `src/impact-react/src/signal.ts`:
the snapshot array (`Array.from(this.contexts)`) is walked element by
element while the live set evolves under the callbacks. -/
def notifyGo (eff : CtxId → List CtxId → List CtxId) :
    List CtxId → List CtxId → List CtxId → List CtxId × List CtxId
  | [], live, visited => (visited, live)
  | c :: rest, live, visited => notifyGo eff rest (eff c live) (visited ++ [c])

/-- `SignalTracker.notify` from `src/impact-react/src/signal.ts`:
`const contexts = Array.from(this.contexts); contexts.forEach(c => c.notify())`. -/
def SignalTracker.notify (eff : CtxId → List CtxId → List CtxId)
    (contexts : List CtxId) : List CtxId × List CtxId :=
  notifyGo eff contexts contexts []

end ImpactReact

namespace Legacy

/-- Loop of `SignalTracker.notify` from `src/src/Signal.ts`
(`this.contexts.forEach(c => c.notify())`): per ECMA-262, `Set.forEach`
walks the live insertion-ordered set by position, so members appended by a
callback *before the walk passes them* are visited in the same pass.  The
walk is fuel-indexed because a callback that keeps appending makes the real
loop diverge as well. -/
def notifyGo (eff : CtxId → List CtxId → List CtxId) :
    Nat → List CtxId → Nat → List CtxId → List CtxId × List CtxId
  | 0, live, _, visited => (visited, live)
  | fuel + 1, live, i, visited =>
      if h : i < live.length then
        let c := live.get ⟨i, h⟩
        notifyGo eff fuel (eff c live) (i + 1) (visited ++ [c])
      else (visited, live)

/-- `SignalTracker.notify` from `src/src/Signal.ts`, run with the given fuel. -/
def SignalTracker.notify (fuel : Nat) (eff : CtxId → List CtxId → List CtxId)
    (contexts : List CtxId) : List CtxId × List CtxId :=
  notifyGo eff fuel contexts 0 []

end Legacy

/-- A notify callback that, when context 0 is notified, re-entrantly adds
context 1 to the tracker's dependent set (e.g. context 0's update handler
synchronously runs a computation that reads the signal and subscribes). -/
def addDependentOnNotify : CtxId → List CtxId → List CtxId :=
  fun c live => if c = 0 then setAdd live 1 else live

/-!
## Signal value cell (claims C3, C6, C8, C9)

JS values as seen by the signal setter: primitives compare by value under
`===`, plain objects and promises compare by reference, so references are
modelled as numeric ids and `===` as decidable equality on `JsValue`.
-/

inductive JsValue where
  | undef
  | prim (n : Int)
  | obj (ref : Nat)
  | promise (ref : Nat)
deriving DecidableEq, Repr

/-- `newValue instanceof Promise` test of the setter. -/
def isPromise : JsValue → Bool
  | .promise _ => true
  | _ => false

/-- Status field of an `ObservablePromise` (`signal.ts` lines 226–243). -/
inductive PromiseStatus where
  | pending
  | fulfilled
  | rejected
deriving DecidableEq, Repr

/-- Outcome of one invocation of the `signal.ts` value setter. -/
structure SetOutcome where
  value : JsValue
  stack : List ObserverContext
  syncNotify : Bool
  deferredScheduled : Bool
deriving DecidableEq, Repr

/-- The `set value(newValue)` accessor of `signal` in
`src/impact-react/src/signal.ts`:

1. if `value === newValue`, return (only a dev-mode `console.warn` when the
   rejected value is an object — no state change, no notification);
2. if `newValue instanceof Promise`, replace it by `createPromise(newValue)`,
   a freshly allocated pending wrapper object (reference `freshRef`);
3. store the new value;
4. only when the `onSetValue` debug hook is installed, call the hook and
   `ObserverContext.current?.registerSetter(signal)`;
5. if the stored value equals the previous one, return;
6. if the stored value is a promise, schedule a microtask that notifies only
   if the value is still a pending promise then; otherwise notify the
   tracker synchronously. -/
def signalSetValue (onSetValueHook : Bool) (freshRef : Nat) (tracker : TrackerId)
    (stack : List ObserverContext) (value newValue : JsValue) : SetOutcome :=
  if value = newValue then
    ⟨value, stack, false, false⟩
  else
    let newValue1 := if isPromise newValue then JsValue.promise freshRef else newValue
    let prevValue := value
    let value1 := newValue1
    let stack1 :=
      if onSetValueHook then
        match stack with
        | c :: rest => registerSetter c tracker :: rest
        | [] => []
      else stack
    if value1 = prevValue then ⟨value1, stack1, false, false⟩
    else if isPromise value1 then ⟨value1, stack1, false, true⟩
    else ⟨value1, stack1, true, false⟩

/-- The microtask queued by the setter for promise values
(`signal.ts` lines 214–218): notify iff the signal's value at that time is
still a promise whose status is pending. -/
def microtaskNotify (valueAtCheck : JsValue) (statusAtCheck : PromiseStatus) : Bool :=
  isPromise valueAtCheck && statusAtCheck == PromiseStatus.pending

/-- Formalisation of claim C8 as stated: for an accepted write, if the newly
stored value is a (necessarily still-pending) asynchronous wrapper that was
constructed from an *already-resolved* input, notification is deferred to a
microtask; for *every other* accepted write the tracker is notified
synchronously within the write. -/
def deferredNotifyClaim (onSetValueHook : Bool) (freshRef : Nat) (tracker : TrackerId)
    (stack : List ObserverContext) (value newValue : JsValue)
    (inputAlreadyResolved : Bool) : Prop :=
  value ≠ newValue →
    (let r := signalSetValue onSetValueHook freshRef tracker stack value newValue
     if isPromise r.value && inputAlreadyResolved then
       r.syncNotify = false ∧ r.deferredScheduled = true
     else
       r.syncNotify = true)

/-- `isResolvingContextFromComponent` from `signal.ts`: a component-typed
context during an active store-container resolution opts out of tracking.
`activeStoreContainer` models `getActiveStoreContainer()` being truthy. -/
def isResolvingContextFromComponent (activeStoreContainer : Bool)
    (c : ObserverContext) : Bool :=
  c.ctype == .component && activeStoreContainer

/-- The read-registration prologue shared by the `signal` and `derived`
getters in `signal.ts`: if `ObserverContext.current` exists and is not a
component resolving from a store, call `registerGetter` on it (the debug
`onGetValue` hook, when installed, is invoked after the registration and
touches no engine state). -/
def registerReadOnCurrent (activeStoreContainer : Bool) (tracker : TrackerId)
    (stack : List ObserverContext) : List ObserverContext :=
  match stack with
  | [] => []
  | c :: rest =>
      if isResolvingContextFromComponent activeStoreContainer c then c :: rest
      else registerGetter c tracker :: rest

/-- Engine state visible to a signal read: the global context stack and the
subscription edges (tracker, context) held by all `SignalTracker.contexts`
sets — the dependent sets that a later `notify()` fans out over. -/
structure SignalWorld where
  stack : List ObserverContext
  deps : List (TrackerId × CtxId)
deriving DecidableEq, Repr

/-- The `get value()` accessor of `signal` in `src/impact-react/src/signal.ts`:
registers the current context as a reader (when one is active and tracking)
and returns the stored value; it never touches any tracker's dependent set. -/
def signalGetValue (activeStoreContainer : Bool) (tracker : TrackerId)
    (w : SignalWorld) : SignalWorld :=
  { w with stack := registerReadOnCurrent activeStoreContainer tracker w.stack }

/-- The dependent contexts a write to `tracker` would notify. -/
def dependentsOf (tracker : TrackerId) (w : SignalWorld) : List CtxId :=
  (w.deps.filter (fun p => p.1 = tracker)).map (fun p => p.2)

/-!
## ObservablePromise and the `use` helper (claims C5, C7)

`ObservablePromise` is the tri-state wrapper from `signal.ts`; a pending
wrapper carries the id of the in-flight operation it was created for.
-/

inductive AsyncValue (V R : Type) where
  | pending (op : Nat)
  | fulfilled (v : V)
  | rejected (r : R)
deriving DecidableEq, Repr

/-- Outcome of calling `use` in `signal.ts`: a normal return, an ordinary
exception carrying the rejection reason (`throw promise.reason`), or a
suspension raising the wrapper itself (`throw promise`). -/
inductive UseOutcome (V R : Type) where
  | returned (v : V)
  | raised (r : R)
  | suspended (op : Nat)
deriving DecidableEq, Repr

/-- `use` from `src/impact-react/src/signal.ts`: pending → throw the wrapper
itself; rejected → throw the reason; fulfilled → return the value. -/
def use {V R : Type} : AsyncValue V R → UseOutcome V R
  | .pending op => .suspended op
  | .rejected r => .raised r
  | .fulfilled v => .returned v

/-!
## Async supersession (claim C5)

`createPromise` in `signal.ts` aborts the previous `currentAbortController`,
installs a fresh one for the new operation, and stores a pending wrapper.
The settlement handlers (`then`/`catch`) first check
`abortController.signal.aborted` and return without touching anything when
their operation has been superseded.  Operations are numbered; `aborted`
records the operations whose controllers were aborted.
-/

structure AsyncSignal (V R : Type) where
  nextOp : Nat
  currentOp : Option Nat
  aborted : List Nat
  value : AsyncValue V R
  notifies : Nat
deriving DecidableEq, Repr

/-- `createPromise` from `signal.ts` (as run by the `set value` accessor for
a promise input): `currentAbortController?.abort()`, install a fresh
controller, store the pending wrapper.  Returns the new state and the id of
the freshly installed operation. -/
def createPromise {V R : Type} (st : AsyncSignal V R) : AsyncSignal V R × Nat :=
  let abortedNow :=
    match st.currentOp with
    | some o => o :: st.aborted
    | none => st.aborted
  (⟨st.nextOp + 1, some st.nextOp, abortedNow, .pending st.nextOp, st.notifies⟩,
   st.nextOp)

/-- The `then`/`catch` settlement handlers installed by `createPromise`:
when operation `op` settles with `outcome`, do nothing if its controller was
aborted; otherwise store the fulfilled/rejected wrapper and notify. -/
def settle {V R : Type} (op : Nat) (outcome : Except R V)
    (st : AsyncSignal V R) : AsyncSignal V R :=
  if op ∈ st.aborted then st
  else
    { st with
      value := match outcome with
               | .ok v => .fulfilled v
               | .error r => .rejected r
      notifies := st.notifies + 1 }

/-!
## Derived values (claims C4, C10)

The zero-argument compute callback `cb` of `derived` is abstracted by its
one-run behaviour: `.ok (v, reads)` — it returns `v` after reading the
trackers `reads` (which the fresh "derived" context accumulates as getters
and its disposal converts into subscriptions) — or `.error e`, it throws
`e`.  `dependsOn` records the subscriptions held from the last completed
run (the disposer's domain).
-/

structure DerivedState (V : Type) where
  value : Option V
  isDirty : Bool
  dependsOn : List TrackerId
deriving DecidableEq, Repr

structure DerivedGetResult (V E : Type) where
  stack : List ObserverContext
  state : DerivedState V
  thrown : Option E
  computeRuns : Nat
deriving DecidableEq, Repr

/-- The `get value()` accessor of `derived` in `src/impact-react/src/signal.ts`:

1. register the derived's own tracker on the caller's current context;
2. when dirty: run `disposer?.()` (drop the previous run's subscriptions),
   construct a fresh "derived" `ObserverContext` (its constructor pushes it
   onto the global stack), run `cb` inside it, then
   `disposer = context[Symbol.dispose]()` (pop the context, subscribe its
   reads) and clear the dirty flag.  When `cb` throws, the dispose line is
   never reached: the context stays on the stack, unsubscribed;
3. when not dirty: return the cached value, `cb` does not run. -/
def derivedGetValue {V E : Type} (trackerD : TrackerId) (asc : Bool)
    (cb : Except E (V × List TrackerId)) (newCtx : ObserverContext)
    (stack : List ObserverContext) (st : DerivedState V) :
    DerivedGetResult V E :=
  let stack0 := registerReadOnCurrent asc trackerD stack
  if st.isDirty then
    match cb with
    | .ok (v, reads) =>
        { stack := (newCtx :: stack0).tail
          state := { value := some v, isDirty := false, dependsOn := reads }
          thrown := none
          computeRuns := 1 }
    | .error e =>
        { stack := newCtx :: stack0
          state := { st with dependsOn := [] }
          thrown := some e
          computeRuns := 1 }
  else
    { stack := stack0, state := st, thrown := none, computeRuns := 0 }

/-- The `onUpdate` callback `derived` installs on its internal context
(`signal.ts` lines 304–308): set the dirty flag and notify the derived's
own tracker — the compute callback is NOT invoked.  Returns the updated
state, the tracker-notify count and the number of compute runs. -/
def derivedOnUpdate {V : Type} (st : DerivedState V) (trackerNotifies : Nat) :
    DerivedState V × Nat × Nat :=
  ({ st with isDirty := true }, trackerNotifies + 1, 0)

namespace Legacy

/-- The subscription callback of `derive` in `src/src/Signal.ts`
(lines 168–181): mark dirty; when `onChange` listeners are registered
(`listeners?.size` truthy), clear the dirty flag and run `cb` eagerly; then
notify the tracker.  Returns the updated state, the tracker-notify count
and the number of compute runs. -/
def deriveOnNotify {V : Type} (cb : V) (listenersSize : Nat)
    (st : DerivedState V) (trackerNotifies : Nat) :
    DerivedState V × Nat × Nat :=
  let st1 := { st with isDirty := true }
  if listenersSize ≠ 0 then
    ({ st1 with isDirty := false, value := some cb }, trackerNotifies + 1, 1)
  else
    (st1, trackerNotifies + 1, 0)

/-- The `observe(cb)` wrapper from `src/src/Signal.ts` (lines 197–218): the
`ObserverContext` constructor pushes the context; both the normal path and
the `catch` branch run `context[Symbol.dispose]()`, which pops it before
the result or exception propagates. -/
def observeCall {V E : Type} (cb : Except E V) (ctx : ObserverContext)
    (stack : List ObserverContext) : List ObserverContext × Except E V :=
  let stackDuring := ctx :: stack
  match cb with
  | .ok v => (stackDuring.tail, .ok v)
  | .error e2 => (stackDuring.tail, .error e2)

end Legacy

/-!
## Theorems
-/

theorem mem_setAdd {l : List Nat} {x y : Nat} :
    y ∈ setAdd l x ↔ y ∈ l ∨ y = x := by
  unfold setAdd
  by_cases hx : x ∈ l
  · simp only [if_pos hx]
    constructor
    · exact Or.inl
    · rintro (h | rfl)
      · exact h
      · exact hx
  · simp [if_neg hx]

theorem ImpactReact.notifyGo_visited (eff : CtxId → List CtxId → List CtxId)
    (snapshot : List CtxId) :
    ∀ live visited,
      (ImpactReact.notifyGo eff snapshot live visited).1 = visited ++ snapshot := by
  induction snapshot with
  | nil => intro live visited; simp [ImpactReact.notifyGo]
  | cons c rest ih =>
      intro live visited
      rw [ImpactReact.notifyGo, ih]
      simp

/-- C1: a SignalTracker is never held as both a read and a write dependency:
`registerSetter` removes any read registration of the tracker and records it
as a write; a subsequent `registerGetter` of the same tracker is a no-op; and
both operations preserve disjointness of the read and write sets. -/
theorem registerSetter_excludes_getter (c : ObserverContext) (t : TrackerId)
    (hnd : c.getters.Nodup) :
    t ∉ (registerSetter c t).getters ∧
    t ∈ (registerSetter c t).setters ∧
    registerGetter (registerSetter c t) t = registerSetter c t ∧
    ((∀ x, x ∈ c.getters → x ∉ c.setters) →
      (∀ x, x ∈ (registerSetter c t).getters → x ∉ (registerSetter c t).setters) ∧
      (∀ x, x ∈ (registerGetter c t).getters → x ∉ (registerGetter c t).setters)) := by
  refine ⟨?_, ?_, ?_, ?_⟩
  · simpa [registerSetter] using hnd.not_mem_erase
  · simp [registerSetter, mem_setAdd]
  · have ht : t ∈ (registerSetter c t).setters := by
      simp [registerSetter, mem_setAdd]
    simp [registerGetter, ht]
  · intro hdisj
    constructor
    · intro x hxg hxs
      simp only [registerSetter] at hxg hxs
      have hxne : x ≠ t ∧ x ∈ c.getters := (hnd.mem_erase_iff).mp hxg
      rcases mem_setAdd.mp hxs with hs | rfl
      · exact hdisj x hxne.2 hs
      · exact hxne.1 rfl
    · intro x hxg hxs
      unfold registerGetter at hxg hxs
      by_cases hts : t ∈ c.setters
      · simp only [if_pos hts] at hxg hxs
        exact hdisj x hxg hxs
      · simp only [if_neg hts] at hxg hxs
        rcases mem_setAdd.mp hxg with hg | rfl
        · exact hdisj x hg hxs
        · exact hts hxs

/-- Witness for C1 at a concrete context holding tracker 0 as a read. -/
theorem registerSetter_excludes_getter_witness :
    (0 ∉ (registerSetter ⟨1, .derived, [0], []⟩ 0).getters ∧
     0 ∈ (registerSetter ⟨1, .derived, [0], []⟩ 0).setters ∧
     registerGetter (registerSetter ⟨1, .derived, [0], []⟩ 0) 0 =
       registerSetter ⟨1, .derived, [0], []⟩ 0 ∧
     ((∀ x, x ∈ ([0] : List TrackerId) → x ∉ ([] : List TrackerId)) →
      (∀ x, x ∈ (registerSetter ⟨1, .derived, [0], []⟩ 0).getters →
         x ∉ (registerSetter ⟨1, .derived, [0], []⟩ 0).setters) ∧
      (∀ x, x ∈ (registerGetter ⟨1, .derived, [0], []⟩ 0).getters →
         x ∉ (registerGetter ⟨1, .derived, [0], []⟩ 0).setters))) :=
  registerSetter_excludes_getter ⟨1, .derived, [0], []⟩ 0 (by decide)

/-- Counterexample to C2 as stated: in the legacy `SignalTracker.notify` of
`src/src/Signal.ts` (no snapshot is taken), context 1 — absent from the
dependent set when the pass starts and added during the pass by context 0's
callback — IS visited in the same pass. -/
theorem legacy_notify_visits_added_context :
    (1 : CtxId) ∉ ([0] : List CtxId) ∧
    (Legacy.SignalTracker.notify 4 addDependentOnNotify [0]).1 = [0, 1] ∧
    (1 : CtxId) ∈ (Legacy.SignalTracker.notify 4 addDependentOnNotify [0]).1 := by
  exact ⟨by decide, rfl, by decide⟩

/-- C2 (amended): for the `SignalTracker.notify` of
`src/impact-react/src/signal.ts`, the dependent set is snapshotted before
iterating, each snapshot member is visited exactly in snapshot order, and a
context not in the snapshot — in particular one added to the live set during
the pass — is never visited in that pass. -/
theorem notify_visits_exactly_snapshot (eff : CtxId → List CtxId → List CtxId)
    (contexts : List CtxId) (c : CtxId) (h : c ∉ contexts) :
    (ImpactReact.SignalTracker.notify eff contexts).1 = contexts ∧
    c ∉ (ImpactReact.SignalTracker.notify eff contexts).1 := by
  have hv : (ImpactReact.SignalTracker.notify eff contexts).1 = contexts := by
    rw [ImpactReact.SignalTracker.notify, ImpactReact.notifyGo_visited]
    simp
  exact ⟨hv, by rw [hv]; exact h⟩

/-- Witness for C2's amended theorem: context 1 is added during the pass by
context 0's callback yet the visited sequence is exactly the snapshot. -/
theorem notify_visits_exactly_snapshot_witness :
    (ImpactReact.SignalTracker.notify addDependentOnNotify [0]).1 = [0] ∧
    (1 : CtxId) ∉ (ImpactReact.SignalTracker.notify addDependentOnNotify [0]).1 :=
  notify_visits_exactly_snapshot addDependentOnNotify [0] 1 (by decide)

/-- C3: writing a value strictly equal (`===`) to the stored value is a
no-op — stored value and context stack unchanged, no synchronous
notification and no deferred microtask; consequently a second consecutive
write of the same primitive is silent and writing a reference-identical
object never notifies. -/
theorem signal_set_equal_is_noop (onSetValueHook : Bool) (freshRef : Nat)
    (tracker : TrackerId) (stack : List ObserverContext)
    (value newValue : JsValue) (h : value = newValue) :
    signalSetValue onSetValueHook freshRef tracker stack value newValue =
      ⟨value, stack, false, false⟩ ∧
    (∀ n : Int,
      signalSetValue onSetValueHook freshRef tracker stack (.prim n) (.prim n) =
        ⟨.prim n, stack, false, false⟩) ∧
    (∀ r : Nat,
      signalSetValue onSetValueHook freshRef tracker stack (.obj r) (.obj r) =
        ⟨.obj r, stack, false, false⟩) := by
  refine ⟨?_, ?_, ?_⟩
  · simp [signalSetValue, h]
  · intro n; simp [signalSetValue]
  · intro r; simp [signalSetValue]

/-- Witness for C3: rewriting the primitive 5 over a stored 5 is a no-op. -/
theorem signal_set_equal_is_noop_witness :
    (signalSetValue false 9 0 [] (.prim 5) (.prim 5) = ⟨.prim 5, [], false, false⟩ ∧
     (∀ n : Int, signalSetValue false 9 0 [] (.prim n) (.prim n) =
        ⟨.prim n, [], false, false⟩) ∧
     (∀ r : Nat, signalSetValue false 9 0 [] (.obj r) (.obj r) =
        ⟨.obj r, [], false, false⟩)) :=
  signal_set_equal_is_noop false 9 0 [] (.prim 5) (.prim 5) rfl

/-- Counterexample to C8 as stated: writing a promise constructed from a
*not yet resolved* input (an accepted write that is not the claim's deferred
case) is NOT notified synchronously — the code defers the notification for
every promise value, regardless of the input's resolvedness. -/
theorem deferred_notify_claim_false :
    ¬ deferredNotifyClaim false 7 0 [] (.prim 0) (.promise 3) false := by
  intro h
  have h2 := h (by decide)
  revert h2
  decide

/-- C8 (amended): for every accepted write whose new value is an
asynchronous operation, no synchronous notification is dispatched and a
microtask check is scheduled that notifies iff the signal's value is still a
pending promise at that time; for every accepted write of a non-promise
value the tracker is notified synchronously and no microtask is scheduled. -/
theorem set_promise_defers_notify (onSetValueHook : Bool) (freshRef : Nat)
    (tracker : TrackerId) (stack : List ObserverContext)
    (value newValue : JsValue) (h : value ≠ newValue)
    (hfresh : value ≠ .promise freshRef) :
    (isPromise newValue = true →
      (signalSetValue onSetValueHook freshRef tracker stack value newValue).syncNotify
          = false ∧
      (signalSetValue onSetValueHook freshRef tracker stack value newValue).deferredScheduled
          = true ∧
      microtaskNotify (.promise freshRef) .pending = true ∧
      microtaskNotify (.promise freshRef) .fulfilled = false) ∧
    (isPromise newValue = false →
      (signalSetValue onSetValueHook freshRef tracker stack value newValue).syncNotify
          = true ∧
      (signalSetValue onSetValueHook freshRef tracker stack value newValue).deferredScheduled
          = false) := by
  constructor
  · intro hp
    cases newValue with
    | undef => simp [isPromise] at hp
    | prim n => simp [isPromise] at hp
    | obj r => simp [isPromise] at hp
    | promise r =>
        have hne : ¬ (JsValue.promise freshRef = value) := fun hv => hfresh hv.symm
        refine ⟨?_, ?_, ?_, ?_⟩
        · simp [signalSetValue, h, hne, isPromise]
        · simp [signalSetValue, h, hne, isPromise]
        · simp [microtaskNotify, isPromise]
        · simp [microtaskNotify, isPromise]
  · intro hp
    have hne2 : ¬ (newValue = value) := fun hv => h hv.symm
    cases newValue with
    | promise r => simp [isPromise] at hp
    | undef => constructor <;> simp [signalSetValue, h, hne2, isPromise]
    | prim n => constructor <;> simp [signalSetValue, h, hne2, isPromise]
    | obj r => constructor <;> simp [signalSetValue, h, hne2, isPromise]

/-- Witness for C8's amended theorem: writing promise input over stored
primitive 0, and writing primitive 1 over stored primitive 0. -/
theorem set_promise_defers_notify_witness :
    ((isPromise (.promise 3) = true →
      (signalSetValue false 7 0 [] (.prim 0) (.promise 3)).syncNotify = false ∧
      (signalSetValue false 7 0 [] (.prim 0) (.promise 3)).deferredScheduled = true ∧
      microtaskNotify (.promise 7) .pending = true ∧
      microtaskNotify (.promise 7) .fulfilled = false) ∧
     (isPromise (.promise 3) = false →
      (signalSetValue false 7 0 [] (.prim 0) (.promise 3)).syncNotify = true ∧
      (signalSetValue false 7 0 [] (.prim 0) (.promise 3)).deferredScheduled = false)) :=
  set_promise_defers_notify false 7 0 [] (.prim 0) (.promise 3)
    (by decide) (by decide)

/-- C9: the debug hooks are NOT purely observational.  At the same concrete
input — a write of primitive 1 over stored primitive 0 inside an active
effect context that holds tracker 5 as a read dependency — the run with the
`onSetValue` hook installed moves tracker 5 from the context's read set to
its write set (because `registerSetter` is called only inside the
`if (signalDebugHooks.onSetValue)` block), while the run without hooks
leaves the registrations untouched: the dependency registrations differ. -/
theorem debug_hook_changes_registrations :
    (signalSetValue true 9 5 [⟨0, .effect, [5], []⟩] (.prim 0) (.prim 1)).stack
        = [⟨0, .effect, [], [5]⟩] ∧
    (signalSetValue false 9 5 [⟨0, .effect, [5], []⟩] (.prim 0) (.prim 1)).stack
        = [⟨0, .effect, [5], []⟩] ∧
    (signalSetValue true 9 5 [⟨0, .effect, [5], []⟩] (.prim 0) (.prim 1)).stack
        ≠ (signalSetValue false 9 5 [⟨0, .effect, [5], []⟩] (.prim 0) (.prim 1)).stack := by
  refine ⟨?_, ?_, ?_⟩ <;> decide

/-- C6: reading a signal while no ObserverContext is active changes nothing:
the world (stack and every dependent set) is returned unchanged, so the
dependents a subsequent write would notify are exactly those it would have
notified without the read — zero notifications are attributable to the read. -/
theorem get_without_context_registers_nothing (activeStoreContainer : Bool)
    (tracker t2 : TrackerId) (w : SignalWorld) (h : w.stack = []) :
    signalGetValue activeStoreContainer tracker w = w ∧
    dependentsOf t2 (signalGetValue activeStoreContainer tracker w) =
      dependentsOf t2 w := by
  have hw : signalGetValue activeStoreContainer tracker w = w := by
    obtain ⟨s, d⟩ := w
    change s = [] at h
    subst h
    rfl
  exact ⟨hw, by rw [hw]⟩

/-- Witness for C6 on a concrete world with an empty context stack and an
existing subscription of context 3 to tracker 1. -/
theorem get_without_context_registers_nothing_witness :
    (signalGetValue false 1 ⟨[], [(1, 3)]⟩ = ⟨[], [(1, 3)]⟩ ∧
     dependentsOf 1 (signalGetValue false 1 ⟨[], [(1, 3)]⟩) =
       dependentsOf 1 ⟨[], [(1, 3)]⟩) :=
  get_without_context_registers_nothing false 1 1 ⟨[], [(1, 3)]⟩ rfl

/-- C7: `use` returns the resolved value of a fulfilled wrapper, raises the
rejection reason of a rejected wrapper through the ordinary exception
channel, and suspends on the wrapper itself when it is pending. -/
theorem use_settles_by_status {V R : Type} (v : V) (r : R) (op : Nat) :
    use (AsyncValue.fulfilled (R := R) v) = .returned v ∧
    use (AsyncValue.rejected (V := V) r) = .raised r ∧
    use (AsyncValue.pending (V := V) (R := R) op) = .suspended op :=
  ⟨rfl, rfl, rfl⟩

/-- C5: installing operation O2 while O1 is in flight aborts O1; O1's later
settlement (fulfillment or rejection alike) leaves the state untouched —
no value mutation, no notification — while O2's settlement stores the
settled wrapper and notifies exactly once.  The hypotheses say the start
state is well formed: every recorded operation id was allocated. -/
theorem superseded_settlement_is_discarded {V R : Type}
    (st0 : AsyncSignal V R) (out1 out2 : Except R V)
    (hwf : ∀ o ∈ st0.aborted, o < st0.nextOp)
    (hcur : ∀ o, st0.currentOp = some o → o < st0.nextOp) :
    settle (createPromise st0).2 out1 (createPromise (createPromise st0).1).1 =
      (createPromise (createPromise st0).1).1 ∧
    (settle (createPromise (createPromise st0).1).2 out2
        (createPromise (createPromise st0).1).1).notifies =
      (createPromise (createPromise st0).1).1.notifies + 1 ∧
    (settle (createPromise (createPromise st0).1).2 out2
        (createPromise (createPromise st0).1).1).value =
      (match out2 with
       | .ok v => AsyncValue.fulfilled v
       | .error r => AsyncValue.rejected r) := by
  have hop1 : (createPromise st0).2 = st0.nextOp := rfl
  have hop2 : (createPromise (createPromise st0).1).2 = st0.nextOp + 1 := rfl
  have hab : (createPromise (createPromise st0).1).1.aborted =
      st0.nextOp :: (createPromise st0).1.aborted := rfl
  have hsub : (createPromise st0).1.aborted =
      (match st0.currentOp with
       | some o => o :: st0.aborted
       | none => st0.aborted) := rfl
  have hnot : (createPromise (createPromise st0).1).2 ∉
      (createPromise (createPromise st0).1).1.aborted := by
    rw [hop2, hab]
    intro hmem
    rcases List.mem_cons.mp hmem with heq | hmem1
    · omega
    · rw [hsub] at hmem1
      cases hc : st0.currentOp with
      | some o =>
          simp only [hc] at hmem1
          rcases List.mem_cons.mp hmem1 with heq2 | hmem2
          · have := hcur o hc; omega
          · have := hwf _ hmem2; omega
      | none =>
          simp only [hc] at hmem1
          have := hwf _ hmem1; omega
  have hmem1 : (createPromise st0).2 ∈ (createPromise (createPromise st0).1).1.aborted := by
    rw [hop1, hab]
    exact List.mem_cons_self _ _
  refine ⟨?_, ?_, ?_⟩
  · simp only [settle]
    rw [if_pos hmem1]
  · simp only [settle]
    rw [if_neg hnot]
  · simp only [settle]
    rw [if_neg hnot]

/-- Witness for C5 from the pristine signal state with no operation yet. -/
theorem superseded_settlement_is_discarded_witness :
    (settle (createPromise (⟨0, none, [], .fulfilled 0, 0⟩ : AsyncSignal Nat Nat)).2
        (.ok 11)
        (createPromise (createPromise (⟨0, none, [], .fulfilled 0, 0⟩ : AsyncSignal Nat Nat)).1).1 =
      (createPromise (createPromise (⟨0, none, [], .fulfilled 0, 0⟩ : AsyncSignal Nat Nat)).1).1 ∧
     (settle (createPromise (createPromise (⟨0, none, [], .fulfilled 0, 0⟩ : AsyncSignal Nat Nat)).1).2
        (.ok 22)
        (createPromise (createPromise (⟨0, none, [], .fulfilled 0, 0⟩ : AsyncSignal Nat Nat)).1).1).notifies =
      (createPromise (createPromise (⟨0, none, [], .fulfilled 0, 0⟩ : AsyncSignal Nat Nat)).1).1.notifies + 1 ∧
     (settle (createPromise (createPromise (⟨0, none, [], .fulfilled 0, 0⟩ : AsyncSignal Nat Nat)).1).2
        (.ok 22)
        (createPromise (createPromise (⟨0, none, [], .fulfilled 0, 0⟩ : AsyncSignal Nat Nat)).1).1).value =
      (match (Except.ok 22 : Except Nat Nat) with
       | .ok v => AsyncValue.fulfilled v
       | .error r => AsyncValue.rejected r)) :=
  superseded_settlement_is_discarded ⟨0, none, [], .fulfilled 0, 0⟩ (.ok 11) (.ok 22)
    (by intro o ho; cases ho) (by intro o ho; cases ho)

/-- Counterexample to C4 as stated: in `derive` of `src/src/Signal.ts`, a
dependency notification with one `onChange` listener registered runs the
compute callback eagerly (one run, new value stored at notification time),
not lazily at the next read. -/
theorem legacy_derive_notification_runs_compute :
    (Legacy.deriveOnNotify (42 : Nat) 1 ⟨some 0, false, []⟩ 0).2.2 = 1 ∧
    (Legacy.deriveOnNotify (42 : Nat) 1 ⟨some 0, false, []⟩ 0).1.value = some 42 ∧
    (Legacy.deriveOnNotify (42 : Nat) 1 ⟨some 0, false, []⟩ 0).1.isDirty = false := by
  refine ⟨?_, ?_, ?_⟩ <;> decide

/-- C4 (amended, for `derived` of `src/impact-react/src/signal.ts`): a read
while dirty runs the compute callback exactly once; a read while not dirty
runs it zero times and leaves the derived state unchanged; a dependency
notification runs it zero times — it only sets the dirty flag and notifies
the derived's own tracker.  (In the legacy `derive` of `src/src/Signal.ts`
the notification instead recomputes eagerly when `onChange` listeners are
registered.) -/
theorem derived_compute_is_lazy {V : Type} (trackerD : TrackerId) (asc : Bool)
    (v : V) (reads : List TrackerId) (newCtx : ObserverContext)
    (stack : List ObserverContext) (val0 : Option V) (dep0 : List TrackerId)
    (n : Nat) (d : Bool) :
    (derivedGetValue (E := Unit) trackerD asc (.ok (v, reads)) newCtx stack
        ⟨val0, true, dep0⟩).computeRuns = 1 ∧
    (derivedGetValue (E := Unit) trackerD asc (.ok (v, reads)) newCtx stack
        ⟨val0, false, dep0⟩).computeRuns = 0 ∧
    (derivedGetValue (E := Unit) trackerD asc (.ok (v, reads)) newCtx stack
        ⟨val0, false, dep0⟩).state = ⟨val0, false, dep0⟩ ∧
    (derivedOnUpdate (V := V) ⟨val0, d, dep0⟩ n).2.2 = 0 ∧
    (derivedOnUpdate (V := V) ⟨val0, d, dep0⟩ n).1.isDirty = true ∧
    (derivedOnUpdate (V := V) ⟨val0, d, dep0⟩ n).2.1 = n + 1 := by
  refine ⟨?_, ?_, ?_, ?_, ?_, ?_⟩ <;> simp [derivedGetValue, derivedOnUpdate]

/-- C10: when the compute callback throws during a dirty recomputation, the
fresh "derived" context is never disposed: the exception carries `e`, the
context remains pushed (top of stack), the accumulated reads are not
converted into subscriptions (the previous run's were already dropped by
`disposer?.()`), the flag stays dirty and the cached value is untouched;
every subsequent tracked read then registers into the leaked context.  The
`observe` wrapper of `src/src/Signal.ts`, in contrast, pops its context on
the exceptional path too. -/
theorem derived_throw_leaks_context {V E : Type} (trackerD tOther : TrackerId)
    (asc asc2 : Bool) (e : E) (newCtx : ObserverContext)
    (stack : List ObserverContext) (val0 : Option V) (dep0 : List TrackerId)
    (obsCtx : ObserverContext) (stack2 : List ObserverContext)
    (hnc : newCtx.ctype = .derived) :
    (derivedGetValue trackerD asc (.error e) newCtx stack
        ⟨val0, true, dep0⟩).thrown = some e ∧
    (derivedGetValue trackerD asc (.error e) newCtx stack
        ⟨val0, true, dep0⟩).stack =
      newCtx :: registerReadOnCurrent asc trackerD stack ∧
    (derivedGetValue trackerD asc (.error e) newCtx stack
        ⟨val0, true, dep0⟩).state = ⟨val0, true, []⟩ ∧
    ((derivedGetValue trackerD asc (.error e) newCtx stack
        ⟨val0, true, dep0⟩).stack).head? = some newCtx ∧
    registerReadOnCurrent asc2 tOther
        ((derivedGetValue trackerD asc (.error e) newCtx stack
            ⟨val0, true, dep0⟩).stack) =
      registerGetter newCtx tOther :: registerReadOnCurrent asc trackerD stack ∧
    (Legacy.observeCall (V := V) (.error e) obsCtx stack2).1 = stack2 ∧
    (Legacy.observeCall (V := V) (.error e) obsCtx stack2).2 = (.error e : Except E V) := by
  have hres : isResolvingContextFromComponent asc2 newCtx = false := by
    simp [isResolvingContextFromComponent, hnc]
  refine ⟨rfl, rfl, rfl, rfl, ?_, rfl, rfl⟩
  simp [derivedGetValue, registerReadOnCurrent, hres]

/-- Witness for C10: a concrete derived context leaked over an empty outer
stack, with the compute throwing the unit exception. -/
theorem derived_throw_leaks_context_witness :
    ((derivedGetValue 0 false (.error ()) ⟨7, .derived, [], []⟩ []
        (⟨some 5, true, [2]⟩ : DerivedState Nat)).thrown = some () ∧
     (derivedGetValue 0 false (.error ()) ⟨7, .derived, [], []⟩ []
        (⟨some 5, true, [2]⟩ : DerivedState Nat)).stack =
       ⟨7, .derived, [], []⟩ :: registerReadOnCurrent false 0 [] ∧
     (derivedGetValue 0 false (.error ()) ⟨7, .derived, [], []⟩ []
        (⟨some 5, true, [2]⟩ : DerivedState Nat)).state = ⟨some 5, true, []⟩ ∧
     ((derivedGetValue 0 false (.error ()) ⟨7, .derived, [], []⟩ []
        (⟨some 5, true, [2]⟩ : DerivedState Nat)).stack).head? =
       some ⟨7, .derived, [], []⟩ ∧
     registerReadOnCurrent true 3
        ((derivedGetValue 0 false (.error ()) ⟨7, .derived, [], []⟩ []
            (⟨some 5, true, [2]⟩ : DerivedState Nat)).stack) =
       registerGetter ⟨7, .derived, [], []⟩ 3 :: registerReadOnCurrent false 0 [] ∧
     (Legacy.observeCall (V := Nat) (.error ()) ⟨8, .component, [], []⟩ []).1 = [] ∧
     (Legacy.observeCall (V := Nat) (.error ()) ⟨8, .component, [], []⟩ []).2 =
       (.error () : Except Unit Nat)) :=
  derived_throw_leaks_context 0 3 false true () ⟨7, .derived, [], []⟩ []
    (some 5) [2] ⟨8, .component, [], []⟩ [] rfl

end Impact
